import Mathlib

/-!
Verification of the `preferred-ip` library (src/lib.rs).

The library discovers the preferred outgoing source address of a network
interface for a given destination scope by opening a UDP socket, binding it
to the device, connecting it to a canonical representative destination
(which fixes a local source address without sending a packet), and reading
the local address back.

We shallowly embed the library over an oracle `Os` supplying the outcomes of
the OS primitives the code invokes (socket creation, literal address
resolution, device binding, datagram connect, local-address query).  Each
embedded function returns its outcome together with the trace of primitive
invocations it performed, so trace properties (which destinations were
probed, that nothing is ever sent) are provable.  A `panic` outcome models a
Rust panic (the `.next().unwrap()` on the resolution iterator).
-/

namespace PreferredIp

/-- Four IPv4 octets, as returned by `Ipv4Addr::octets()` in Rust. -/
structure Ipv4Addr where
  o0 : Nat
  o1 : Nat
  o2 : Nat
  o3 : Nat
deriving DecidableEq, Repr

/-- Eight 16-bit IPv6 segments, as returned by `Ipv6Addr::segments()` in Rust. -/
structure Ipv6Addr where
  s0 : Nat
  s1 : Nat
  s2 : Nat
  s3 : Nat
  s4 : Nat
  s5 : Nat
  s6 : Nat
  s7 : Nat
deriving DecidableEq, Repr

/-- `std::net::IpAddr`. -/
inductive IpAddr where
  | V4 (addr : Ipv4Addr)
  | V6 (addr : Ipv6Addr)
deriving DecidableEq, Repr

/-- `std::net::Ipv4Addr::is_private`: the RFC1918 ranges 10/8, 172.16/12, 192.168/16. -/
def Ipv4Addr.is_private (a : Ipv4Addr) : Bool :=
  a.o0 == 10
    || (a.o0 == 172 && decide (16 ≤ a.o1) && decide (a.o1 ≤ 31))
    || (a.o0 == 192 && a.o1 == 168)

/-- `std::net::Ipv4Addr::is_link_local`: 169.254.0.0/16. -/
def Ipv4Addr.is_link_local (a : Ipv4Addr) : Bool :=
  a.o0 == 169 && a.o1 == 254

/-- `std::net::Ipv4Addr::is_loopback`: 127.0.0.0/8. -/
def Ipv4Addr.is_loopback (a : Ipv4Addr) : Bool :=
  a.o0 == 127

/-- `std::net::Ipv4Addr::is_shared`: 100.64.0.0/10. -/
def Ipv4Addr.is_shared (a : Ipv4Addr) : Bool :=
  a.o0 == 100 && (a.o1 &&& 0b11000000 == 0b01000000)

/-- `std::net::Ipv4Addr::is_documentation`: 192.0.2.0/24, 198.51.100.0/24, 203.0.113.0/24. -/
def Ipv4Addr.is_documentation (a : Ipv4Addr) : Bool :=
  (a.o0 == 192 && a.o1 == 0 && a.o2 == 2)
    || (a.o0 == 198 && a.o1 == 51 && a.o2 == 100)
    || (a.o0 == 203 && a.o1 == 0 && a.o2 == 113)

/-- `std::net::Ipv4Addr::is_benchmarking`: 198.18.0.0/15. -/
def Ipv4Addr.is_benchmarking (a : Ipv4Addr) : Bool :=
  a.o0 == 198 && (a.o1 &&& 0xfe) == 18

/-- `std::net::Ipv4Addr::is_broadcast`: 255.255.255.255. -/
def Ipv4Addr.is_broadcast (a : Ipv4Addr) : Bool :=
  a.o0 == 255 && a.o1 == 255 && a.o2 == 255 && a.o3 == 255

/-- `std::net::Ipv4Addr::is_reserved`: 240.0.0.0/4 minus the broadcast address. -/
def Ipv4Addr.is_reserved (a : Ipv4Addr) : Bool :=
  (a.o0 &&& 240 == 240) && !a.is_broadcast

/-- `std::net::Ipv4Addr::is_global` (nightly `ip` feature): not in any
non-globally-routable special range. -/
def Ipv4Addr.is_global (a : Ipv4Addr) : Bool :=
  !(a.o0 == 0
    || a.is_private
    || a.is_shared
    || a.is_loopback
    || a.is_link_local
    || (a.o0 == 192 && a.o1 == 0 && a.o2 == 0 && a.o3 != 9 && a.o3 != 10)
    || a.is_documentation
    || a.is_benchmarking
    || a.is_reserved
    || a.is_broadcast)

/-- `std::net::Ipv6Addr::is_multicast`: ff00::/8. -/
def Ipv6Addr.is_multicast (a : Ipv6Addr) : Bool :=
  a.s0 &&& 0xff00 == 0xff00

/-- `std::net::Ipv6Addr::is_unicast`: not multicast. -/
def Ipv6Addr.is_unicast (a : Ipv6Addr) : Bool :=
  !a.is_multicast

/-- `std::net::Ipv6Addr::is_unicast_link_local`: fe80::/10. -/
def Ipv6Addr.is_unicast_link_local (a : Ipv6Addr) : Bool :=
  a.s0 &&& 0xffc0 == 0xfe80

/-- `std::net::Ipv6Addr::is_unique_local`: fc00::/7. -/
def Ipv6Addr.is_unique_local (a : Ipv6Addr) : Bool :=
  a.s0 &&& 0xfe00 == 0xfc00

/-- `std::net::Ipv6Addr::is_loopback`: ::1. -/
def Ipv6Addr.is_loopback (a : Ipv6Addr) : Bool :=
  a.s0 == 0 && a.s1 == 0 && a.s2 == 0 && a.s3 == 0
    && a.s4 == 0 && a.s5 == 0 && a.s6 == 0 && a.s7 == 1

/-- `std::net::Ipv6Addr::is_unspecified`: ::. -/
def Ipv6Addr.is_unspecified (a : Ipv6Addr) : Bool :=
  a.s0 == 0 && a.s1 == 0 && a.s2 == 0 && a.s3 == 0
    && a.s4 == 0 && a.s5 == 0 && a.s6 == 0 && a.s7 == 0

/-- `std::net::Ipv6Addr::is_documentation`: 2001:db8::/32 (RFC 3849). -/
def Ipv6Addr.is_documentation (a : Ipv6Addr) : Bool :=
  a.s0 == 0x2001 && a.s1 == 0xdb8

/-- `std::net::Ipv6Addr::is_benchmarking`: 2001:2::/48. -/
def Ipv6Addr.is_benchmarking (a : Ipv6Addr) : Bool :=
  a.s0 == 0x2001 && a.s1 == 0x2 && a.s2 == 0

/-- `std::net::Ipv6Addr::is_unicast_global` (nightly `ip` feature): unicast
and not loopback, link-local, unique-local, unspecified, documentation or
benchmarking. -/
def Ipv6Addr.is_unicast_global (a : Ipv6Addr) : Bool :=
  a.is_unicast
    && !a.is_loopback
    && !a.is_unicast_link_local
    && !a.is_unique_local
    && !a.is_unspecified
    && !a.is_documentation
    && !a.is_benchmarking

/-- An OS-level error, opaque to the library (`std::io::Error`). -/
structure IoError where
  code : Nat
deriving DecidableEq, Repr

/-- The library's error enum (`Error` in src/lib.rs). -/
inductive Error where
  | IoError (e : IoError)
  | WrongIpVer (want : String) (got : IpAddr)
  | NoLinkLocal (ip : Ipv6Addr)
  | NoUla (ip : Ipv6Addr)
  | NoGua (ip : Ipv6Addr)
  | NoV4LL (ip : Ipv4Addr)
  | NoPrivate (a : Ipv4Addr) (b : Ipv4Addr) (c : Ipv4Addr)
  | NoGlobal (ip : Ipv4Addr)
deriving DecidableEq, Repr

/-- socket2 `Domain` (only the two used by the library). -/
inductive Domain where
  | IPV4
  | IPV6
deriving DecidableEq, Repr

/-- socket2 `Type` (only `DGRAM` is used). -/
inductive SockType where
  | DGRAM
deriving DecidableEq, Repr

/-- A resolved socket address (`std::net::SocketAddr`). -/
structure SockAddr where
  ip : IpAddr
  port : Nat
deriving DecidableEq, Repr

/-- The outcome of a library call: success, a returned `Error`, or a Rust
panic (the code can panic via `.unwrap()`). -/
inductive Outcome (α : Type) where
  | ok (a : α)
  | err (e : Error)
  | panic
deriving DecidableEq, Repr

/-- One invocation of an OS/runtime primitive, as recorded in a call trace.
`send` is in the vocabulary so that its absence from every trace is a
statable theorem; the library never emits it. -/
inductive PrimCall where
  | socketNew (d : Domain) (t : SockType)
  | resolve (host : String) (port : Nat)
  | bindDevice (d : Domain) (iface : String)
  | connect (d : Domain) (iface : String) (dest : SockAddr)
  | localAddr (d : Domain) (iface : String) (dest : SockAddr)
  | send (d : Domain) (iface : String) (dest : SockAddr)
deriving DecidableEq, Repr

/-- The OS oracle: the outcome of each primitive the library invokes, as a
deterministic function of the arguments (and of the socket state relevant at
that point: its domain, bound device, and connected destination).
`none` / `.ok` model success, `some e` / `.error e` an OS failure. -/
structure Os where
  socketNew : Domain → SockType → Option IoError
  toSocketAddrs : String → Nat → Except IoError (List SockAddr)
  bindDevice : Domain → String → Option IoError
  connect : Domain → String → SockAddr → Option IoError
  localAddr : Domain → String → SockAddr → Except IoError SockAddr

/-- `get_ipv6` from src/lib.rs: open an IPv6 UDP socket, resolve the literal
destination with port 0, take the first resolved address (`.next().unwrap()`
— panics if resolution yields none), bind the socket to the device, connect,
read the local address, and check its family.  Returns the outcome paired
with the trace of primitives invoked. -/
def get_ipv6 (os : Os) (interface network : String) :
    Outcome Ipv6Addr × List PrimCall :=
  match os.socketNew .IPV6 .DGRAM with
  | some e => (.err (.IoError e), [.socketNew .IPV6 .DGRAM])
  | none =>
    match os.toSocketAddrs network 0 with
    | .error e =>
        (.err (.IoError e), [.socketNew .IPV6 .DGRAM, .resolve network 0])
    | .ok [] => (.panic, [.socketNew .IPV6 .DGRAM, .resolve network 0])
    | .ok (sock_addr :: _) =>
      match os.bindDevice .IPV6 interface with
      | some e =>
          (.err (.IoError e),
            [.socketNew .IPV6 .DGRAM, .resolve network 0,
              .bindDevice .IPV6 interface])
      | none =>
        match os.connect .IPV6 interface sock_addr with
        | some e =>
            (.err (.IoError e),
              [.socketNew .IPV6 .DGRAM, .resolve network 0,
                .bindDevice .IPV6 interface, .connect .IPV6 interface sock_addr])
        | none =>
          match os.localAddr .IPV6 interface sock_addr with
          | .error e =>
              (.err (.IoError e),
                [.socketNew .IPV6 .DGRAM, .resolve network 0,
                  .bindDevice .IPV6 interface, .connect .IPV6 interface sock_addr,
                  .localAddr .IPV6 interface sock_addr])
          | .ok la =>
            (match la.ip with
              | .V4 _ => .err (.WrongIpVer "IPv6" la.ip)
              | .V6 ipv6 => .ok ipv6,
              [.socketNew .IPV6 .DGRAM, .resolve network 0,
                .bindDevice .IPV6 interface, .connect .IPV6 interface sock_addr,
                .localAddr .IPV6 interface sock_addr])

/-- `get_ipv4` from src/lib.rs: identical to `get_ipv6` with the IPv4 domain
and the families swapped in the final check. -/
def get_ipv4 (os : Os) (interface network : String) :
    Outcome Ipv4Addr × List PrimCall :=
  match os.socketNew .IPV4 .DGRAM with
  | some e => (.err (.IoError e), [.socketNew .IPV4 .DGRAM])
  | none =>
    match os.toSocketAddrs network 0 with
    | .error e =>
        (.err (.IoError e), [.socketNew .IPV4 .DGRAM, .resolve network 0])
    | .ok [] => (.panic, [.socketNew .IPV4 .DGRAM, .resolve network 0])
    | .ok (sock_addr :: _) =>
      match os.bindDevice .IPV4 interface with
      | some e =>
          (.err (.IoError e),
            [.socketNew .IPV4 .DGRAM, .resolve network 0,
              .bindDevice .IPV4 interface])
      | none =>
        match os.connect .IPV4 interface sock_addr with
        | some e =>
            (.err (.IoError e),
              [.socketNew .IPV4 .DGRAM, .resolve network 0,
                .bindDevice .IPV4 interface, .connect .IPV4 interface sock_addr])
        | none =>
          match os.localAddr .IPV4 interface sock_addr with
          | .error e =>
              (.err (.IoError e),
                [.socketNew .IPV4 .DGRAM, .resolve network 0,
                  .bindDevice .IPV4 interface, .connect .IPV4 interface sock_addr,
                  .localAddr .IPV4 interface sock_addr])
          | .ok la =>
            (match la.ip with
              | .V4 ipv4 => .ok ipv4
              | .V6 _ => .err (.WrongIpVer "IPv4" la.ip),
              [.socketNew .IPV4 .DGRAM, .resolve network 0,
                .bindDevice .IPV4 interface, .connect .IPV4 interface sock_addr,
                .localAddr .IPV4 interface sock_addr])

/-- `get_ipv6_unicast_link_local`: probe fe80:: and validate link-local. -/
def get_ipv6_unicast_link_local (os : Os) (interface : String) :
    Outcome Ipv6Addr × List PrimCall :=
  match get_ipv6 os interface "fe80::" with
  | (.ok ipv6, t) =>
    (if ipv6.is_unicast_link_local then .ok ipv6 else .err (.NoLinkLocal ipv6), t)
  | (.err e, t) => (.err e, t)
  | (.panic, t) => (.panic, t)

/-- `get_ipv6_unique_local`: probe fc00:: and validate unique-local. -/
def get_ipv6_unique_local (os : Os) (interface : String) :
    Outcome Ipv6Addr × List PrimCall :=
  match get_ipv6 os interface "fc00::" with
  | (.ok ipv6, t) =>
    (if ipv6.is_unique_local then .ok ipv6 else .err (.NoUla ipv6), t)
  | (.err e, t) => (.err e, t)
  | (.panic, t) => (.panic, t)

/-- `get_ipv6_unicast_global`: probe 2000:: and validate global unicast. -/
def get_ipv6_unicast_global (os : Os) (interface : String) :
    Outcome Ipv6Addr × List PrimCall :=
  match get_ipv6 os interface "2000::" with
  | (.ok ipv6, t) =>
    (if ipv6.is_unicast_global then .ok ipv6 else .err (.NoGua ipv6), t)
  | (.err e, t) => (.err e, t)
  | (.panic, t) => (.panic, t)

/-- `get_ipv4_link_local`: probe 169.254.0.0 and validate link-local. -/
def get_ipv4_link_local (os : Os) (interface : String) :
    Outcome Ipv4Addr × List PrimCall :=
  match get_ipv4 os interface "169.254.0.0" with
  | (.ok ipv4, t) =>
    (if ipv4.is_link_local then .ok ipv4 else .err (.NoV4LL ipv4), t)
  | (.err e, t) => (.err e, t)
  | (.panic, t) => (.panic, t)

/-- `get_ipv4_private`: probe 10.0.0.0, 172.16.0.0 and 192.168.0.0 in that
order (each probe's failure propagates immediately via `?`), then return the
first private result in the preference order 192.168, 172.16, 10. -/
def get_ipv4_private (os : Os) (interface : String) :
    Outcome Ipv4Addr × List PrimCall :=
  match get_ipv4 os interface "10.0.0.0" with
  | (.err e, ta) => (.err e, ta)
  | (.panic, ta) => (.panic, ta)
  | (.ok a, ta) =>
    match get_ipv4 os interface "172.16.0.0" with
    | (.err e, tb) => (.err e, ta ++ tb)
    | (.panic, tb) => (.panic, ta ++ tb)
    | (.ok b, tb) =>
      match get_ipv4 os interface "192.168.0.0" with
      | (.err e, tc) => (.err e, ta ++ tb ++ tc)
      | (.panic, tc) => (.panic, ta ++ tb ++ tc)
      | (.ok c, tc) =>
        (if c.is_private then .ok c
          else if b.is_private then .ok b
          else if a.is_private then .ok a
          else .err (.NoPrivate a b c),
          ta ++ tb ++ tc)

/-- `get_ipv4_global`: probe 0.0.0.0 and validate global. -/
def get_ipv4_global (os : Os) (interface : String) :
    Outcome Ipv4Addr × List PrimCall :=
  match get_ipv4 os interface "0.0.0.0" with
  | (.ok ipv4, t) =>
    (if ipv4.is_global then .ok ipv4 else .err (.NoGlobal ipv4), t)
  | (.err e, t) => (.err e, t)
  | (.panic, t) => (.panic, t)

/-- The (host, port) arguments of the resolution calls in a trace, in order. -/
def resolveArgs (t : List PrimCall) : List (String × Nat) :=
  t.filterMap fun c =>
    match c with
    | .resolve h p => some (h, p)
    | _ => none

/-- Whether a primitive call is a socket creation. -/
def isSocketNew (c : PrimCall) : Bool :=
  match c with
  | .socketNew _ _ => true
  | _ => false

/-- Number of probes started in a trace: each probe opens exactly one socket,
as its first primitive invocation. -/
def probeCount (t : List PrimCall) : Nat :=
  (t.filter isSocketNew).length

/-- Whether a primitive call is a send. -/
def isSend (c : PrimCall) : Bool :=
  match c with
  | .send _ _ _ => true
  | _ => false

/-- The four primitive kinds the spec sentence says the probe invokes:
socket creation, device binding, datagram connect, local-address query.
Address resolution is not among them. -/
def claimedProbePrim (c : PrimCall) : Bool :=
  match c with
  | .socketNew _ _ => true
  | .bindDevice _ _ => true
  | .connect _ _ _ => true
  | .localAddr _ _ _ => true
  | _ => false

/-- The five primitive kinds the probe actually invokes: the four of
`claimedProbePrim` plus literal address resolution. -/
def probePrim (c : PrimCall) : Bool :=
  claimedProbePrim c
    || (match c with
        | .resolve _ _ => true
        | _ => false)

/-- Whether a call is one of the probe's primitives and not a send; used to
state that traces contain nothing else. -/
def probeSafe (c : PrimCall) : Bool :=
  probePrim c && !isSend c

/-- Spec-side definition (section 4.2, IPv4 private tie-break), for
comparison with `get_ipv4_private`: the
preference order among the three probe results as the spec words it — the
192.168.0.0 probe result `c` first, then the 172.16.0.0 result `b`, then the
10.0.0.0 result `a`; the first in this order that validates as private. -/
def firstPrivatePreferred (a b c : Ipv4Addr) : Option Ipv4Addr :=
  [c, b, a].find? Ipv4Addr.is_private

/-- The single socket address a literal destination used by the library
resolves to: the literal itself.  (Resolution of a literal in Rust is
deterministic and yields exactly one address.) -/
def canonicalSockAddr (host : String) (port : Nat) : SockAddr :=
  if host = "fe80::" then ⟨.V6 ⟨0xfe80, 0, 0, 0, 0, 0, 0, 0⟩, port⟩
  else if host = "fc00::" then ⟨.V6 ⟨0xfc00, 0, 0, 0, 0, 0, 0, 0⟩, port⟩
  else if host = "2000::" then ⟨.V6 ⟨0x2000, 0, 0, 0, 0, 0, 0, 0⟩, port⟩
  else if host = "169.254.0.0" then ⟨.V4 ⟨169, 254, 0, 0⟩, port⟩
  else if host = "10.0.0.0" then ⟨.V4 ⟨10, 0, 0, 0⟩, port⟩
  else if host = "172.16.0.0" then ⟨.V4 ⟨172, 16, 0, 0⟩, port⟩
  else if host = "192.168.0.0" then ⟨.V4 ⟨192, 168, 0, 0⟩, port⟩
  else ⟨.V4 ⟨0, 0, 0, 0⟩, port⟩

/-- A concrete well-behaved oracle: every primitive succeeds, and the
route-selected source address matches the scope of the probed destination
(as on a host with one address of every scope on the interface). -/
def goodOs : Os where
  socketNew := fun _ _ => none
  toSocketAddrs := fun h p => .ok [canonicalSockAddr h p]
  bindDevice := fun _ _ => none
  connect := fun _ _ _ => none
  localAddr := fun _ _ dest =>
    match dest.ip with
    | .V6 s =>
      if s.s0 == 0xfe80 then .ok ⟨.V6 ⟨0xfe80, 0, 0, 0, 0, 0, 0, 1⟩, 40000⟩
      else if s.s0 == 0xfc00 then .ok ⟨.V6 ⟨0xfd00, 0, 0, 0, 0, 0, 0, 1⟩, 40000⟩
      else .ok ⟨.V6 ⟨0x2600, 0, 0, 0, 0, 0, 0, 1⟩, 40000⟩
    | .V4 o =>
      if o.o0 == 169 then .ok ⟨.V4 ⟨169, 254, 7, 7⟩, 40000⟩
      else if o.o0 == 10 then .ok ⟨.V4 ⟨10, 1, 2, 3⟩, 40000⟩
      else if o.o0 == 172 then .ok ⟨.V4 ⟨172, 16, 5, 5⟩, 40000⟩
      else if o.o0 == 192 then .ok ⟨.V4 ⟨192, 168, 1, 7⟩, 40000⟩
      else .ok ⟨.V4 ⟨8, 8, 8, 8⟩, 40000⟩

/-- An oracle whose resolution succeeds with an empty address list: the
situation in which the code's `.next().unwrap()` panics. -/
def emptyResolveOs : Os where
  socketNew := fun _ _ => none
  toSocketAddrs := fun _ _ => .ok []
  bindDevice := fun _ _ => none
  connect := fun _ _ _ => none
  localAddr := fun _ _ dest => .ok dest

/-- An oracle on which device binding fails with OS error 19 (ENODEV, as for
a nonexistent interface name); everything before it succeeds. -/
def bindFailOs : Os :=
  { goodOs with bindDevice := fun _ _ => some ⟨19⟩ }

/-- An oracle on which the local-address query reports an IPv4 address even
on an IPv6 socket (and vice versa): exercises the family-mismatch check. -/
def wrongFamilyOs : Os :=
  { goodOs with localAddr := fun _ _ _ => .ok ⟨.V4 ⟨1, 2, 3, 4⟩, 40000⟩ }

/-- An oracle on which every probe resolves to an out-of-scope source
address: a global IPv6 address for every IPv6 destination and a global IPv4
address for every IPv4 destination. -/
def wrongScopeOs : Os :=
  { goodOs with localAddr := fun _ _ dest =>
      match dest.ip with
      | .V6 _ => .ok ⟨.V6 ⟨0x2600, 0, 0, 0, 0, 0, 0, 9⟩, 40000⟩
      | .V4 _ => .ok ⟨.V4 ⟨8, 8, 8, 8⟩, 40000⟩ }

/-- An oracle on which the connect step fails exactly for the 172.16.0.0
destination; the 10.0.0.0 and 192.168.0.0 probes would succeed with valid
private addresses. -/
def midFailOs : Os :=
  { goodOs with connect := fun _ _ sa =>
      if sa = canonicalSockAddr "172.16.0.0" 0 then some ⟨101⟩ else none }

/-- C1: when the three probes of `get_ipv4_private` all succeed, the result
is determined by the fixed preference order — the 192.168.0.0 probe result
first, then the 172.16.0.0 result, then the 10.0.0.0 result: the first one
in this order that satisfies `Ipv4Addr.is_private` is returned, and if none
does the `NoPrivate` error is returned. -/
theorem C1_private_preference_order (os : Os) (interface : String)
    (a b c : Ipv4Addr) (ta tb tc : List PrimCall)
    (ha : get_ipv4 os interface "10.0.0.0" = (.ok a, ta))
    (hb : get_ipv4 os interface "172.16.0.0" = (.ok b, tb))
    (hc : get_ipv4 os interface "192.168.0.0" = (.ok c, tc)) :
    (get_ipv4_private os interface).1 =
      match firstPrivatePreferred a b c with
      | some x => .ok x
      | none => .err (.NoPrivate a b c) := by
  unfold get_ipv4_private firstPrivatePreferred
  rw [ha, hb, hc]
  cases hcp : c.is_private <;> cases hbp : b.is_private <;> cases hap : a.is_private <;>
    simp [List.find?, hcp, hbp, hap]

/-- C1 witness: on the concrete oracle `goodOs`, whose three private probes
resolve to 10.1.2.3, 172.16.5.5 and 192.168.1.7 (all private), the
operation returns the 192.168.0.0 probe result. -/
theorem C1_private_preference_order_witness :
    (get_ipv4_private goodOs "eth0").1 = .ok ⟨192, 168, 1, 7⟩ := by
  have h := C1_private_preference_order goodOs "eth0"
    ⟨10, 1, 2, 3⟩ ⟨172, 16, 5, 5⟩ ⟨192, 168, 1, 7⟩ _ _ _ rfl rfl rfl
  simpa [firstPrivatePreferred, List.find?, Ipv4Addr.is_private] using h

/-- C2: scope invariant. For every oracle and interface, a successful result
of each of the six public operations satisfies that operation's scope
predicate; no operation returns an address that failed its validation. -/
theorem C2_scope_invariant (os : Os) (interface : String) :
    (∀ a, (get_ipv6_unicast_link_local os interface).1 = .ok a → a.is_unicast_link_local = true)
  ∧ (∀ a, (get_ipv6_unique_local os interface).1 = .ok a → a.is_unique_local = true)
  ∧ (∀ a, (get_ipv6_unicast_global os interface).1 = .ok a → a.is_unicast_global = true)
  ∧ (∀ a, (get_ipv4_link_local os interface).1 = .ok a → a.is_link_local = true)
  ∧ (∀ a, (get_ipv4_private os interface).1 = .ok a → a.is_private = true)
  ∧ (∀ a, (get_ipv4_global os interface).1 = .ok a → a.is_global = true) := by
  refine ⟨?_, ?_, ?_, ?_, ?_, ?_⟩ <;> intro a h
  · unfold get_ipv6_unicast_link_local at h
    rcases hp : get_ipv6 os interface "fe80::" with ⟨v | e | _, t⟩ <;> rw [hp] at h <;>
      try simp at h
    cases hv : v.is_unicast_link_local <;> simp [hv] at h <;> simp_all
  · unfold get_ipv6_unique_local at h
    rcases hp : get_ipv6 os interface "fc00::" with ⟨v | e | _, t⟩ <;> rw [hp] at h <;>
      try simp at h
    cases hv : v.is_unique_local <;> simp [hv] at h <;> simp_all
  · unfold get_ipv6_unicast_global at h
    rcases hp : get_ipv6 os interface "2000::" with ⟨v | e | _, t⟩ <;> rw [hp] at h <;>
      try simp at h
    cases hv : v.is_unicast_global <;> simp [hv] at h <;> simp_all
  · unfold get_ipv4_link_local at h
    rcases hp : get_ipv4 os interface "169.254.0.0" with ⟨v | e | _, t⟩ <;> rw [hp] at h <;>
      try simp at h
    cases hv : v.is_link_local <;> simp [hv] at h <;> simp_all
  · unfold get_ipv4_private at h
    rcases hpa : get_ipv4 os interface "10.0.0.0" with ⟨va | e | _, ta⟩ <;> rw [hpa] at h <;>
      try simp at h
    rcases hpb : get_ipv4 os interface "172.16.0.0" with ⟨vb | e | _, tb⟩ <;> rw [hpb] at h <;>
      try simp at h
    rcases hpc : get_ipv4 os interface "192.168.0.0" with ⟨vc | e | _, tc⟩ <;> rw [hpc] at h <;>
      try simp at h
    cases hc : vc.is_private <;> cases hb : vb.is_private <;> cases ha : va.is_private <;>
      simp [hc, hb, ha] at h <;> simp_all
  · unfold get_ipv4_global at h
    rcases hp : get_ipv4 os interface "0.0.0.0" with ⟨v | e | _, t⟩ <;> rw [hp] at h <;>
      try simp at h
    cases hv : v.is_global <;> simp [hv] at h <;> simp_all

/-- C2 witness: on `goodOs` each of the six operations succeeds, and the
invariant instantiates to the concrete returned addresses. -/
theorem C2_scope_invariant_witness :
    (Ipv6Addr.is_unicast_link_local ⟨0xfe80, 0, 0, 0, 0, 0, 0, 1⟩ = true)
  ∧ (Ipv6Addr.is_unique_local ⟨0xfd00, 0, 0, 0, 0, 0, 0, 1⟩ = true)
  ∧ (Ipv6Addr.is_unicast_global ⟨0x2600, 0, 0, 0, 0, 0, 0, 1⟩ = true)
  ∧ (Ipv4Addr.is_link_local ⟨169, 254, 7, 7⟩ = true)
  ∧ (Ipv4Addr.is_private ⟨192, 168, 1, 7⟩ = true)
  ∧ (Ipv4Addr.is_global ⟨8, 8, 8, 8⟩ = true) :=
  ⟨(C2_scope_invariant goodOs "eth0").1 _ (by decide),
   (C2_scope_invariant goodOs "eth0").2.1 _ (by decide),
   (C2_scope_invariant goodOs "eth0").2.2.1 _ (by decide),
   (C2_scope_invariant goodOs "eth0").2.2.2.1 _ (by decide),
   (C2_scope_invariant goodOs "eth0").2.2.2.2.1 _ (by decide),
   (C2_scope_invariant goodOs "eth0").2.2.2.2.2 _ (by decide)⟩

/-- The IPv6 probe can reach the panic (`unwrap`) only when resolution
returns an empty address list. -/
theorem get_ipv6_no_panic (os : Os) (interface network : String)
    (h : os.toSocketAddrs network 0 ≠ .ok []) :
    (get_ipv6 os interface network).1 ≠ .panic := by
  unfold get_ipv6
  repeat' split
  all_goals simp_all

/-- The IPv4 probe can reach the panic (`unwrap`) only when resolution
returns an empty address list. -/
theorem get_ipv4_no_panic (os : Os) (interface network : String)
    (h : os.toSocketAddrs network 0 ≠ .ok []) :
    (get_ipv4 os interface network).1 ≠ .panic := by
  unfold get_ipv4
  repeat' split
  all_goals simp_all

/-- Once the socket is created, the IPv6 probe resolves exactly its
destination with port 0, whatever happens afterwards. -/
theorem get_ipv6_trace_resolve (os : Os) (interface network : String)
    (h : os.socketNew .IPV6 .DGRAM = none) :
    resolveArgs (get_ipv6 os interface network).2 = [(network, 0)] := by
  unfold get_ipv6
  rw [h]
  repeat' split
  all_goals simp_all [resolveArgs]

/-- Once the socket is created, the IPv4 probe resolves exactly its
destination with port 0, whatever happens afterwards. -/
theorem get_ipv4_trace_resolve (os : Os) (interface network : String)
    (h : os.socketNew .IPV4 .DGRAM = none) :
    resolveArgs (get_ipv4 os interface network).2 = [(network, 0)] := by
  unfold get_ipv4
  rw [h]
  repeat' split
  all_goals simp_all [resolveArgs]

/-- A successful IPv4 probe performed exactly the five primitives, in order,
on a socket that was created successfully. -/
theorem get_ipv4_ok_trace (os : Os) (interface network : String)
    (v : Ipv4Addr) (t : List PrimCall)
    (h : get_ipv4 os interface network = (.ok v, t)) :
    ∃ sa rest,
      os.socketNew .IPV4 .DGRAM = none ∧
      os.toSocketAddrs network 0 = .ok (sa :: rest) ∧
      t = [.socketNew .IPV4 .DGRAM, .resolve network 0, .bindDevice .IPV4 interface,
        .connect .IPV4 interface sa, .localAddr .IPV4 interface sa] := by
  revert h
  unfold get_ipv4
  repeat' split
  all_goals intro h
  any_goals (exfalso; simp at h; done)
  simp only [Prod.mk.injEq, Outcome.ok.injEq] at h
  obtain ⟨hv, ht⟩ := h
  subst ht
  exact ⟨_, _, by assumption, by assumption, rfl⟩

/-- Every primitive in an IPv6 probe trace is one of the five probe
primitives and is not a send. -/
theorem get_ipv6_trace_safe (os : Os) (interface network : String) :
    ((get_ipv6 os interface network).2.all probeSafe) = true := by
  unfold get_ipv6
  repeat' split
  all_goals rfl

/-- Every primitive in an IPv4 probe trace is one of the five probe
primitives and is not a send. -/
theorem get_ipv4_trace_safe (os : Os) (interface network : String) :
    ((get_ipv4 os interface network).2.all probeSafe) = true := by
  unfold get_ipv4
  repeat' split
  all_goals rfl

/-- The IPv6 link-local operation performs exactly the primitives of its
probe. -/
theorem get_ipv6_unicast_link_local_trace (os : Os) (interface : String) :
    (get_ipv6_unicast_link_local os interface).2 = (get_ipv6 os interface "fe80::").2 := by
  unfold get_ipv6_unicast_link_local
  rcases get_ipv6 os interface "fe80::" with ⟨v | e | _, t⟩ <;> simp

/-- The IPv6 unique-local operation performs exactly the primitives of its
probe. -/
theorem get_ipv6_unique_local_trace (os : Os) (interface : String) :
    (get_ipv6_unique_local os interface).2 = (get_ipv6 os interface "fc00::").2 := by
  unfold get_ipv6_unique_local
  rcases get_ipv6 os interface "fc00::" with ⟨v | e | _, t⟩ <;> simp

/-- The IPv6 global operation performs exactly the primitives of its probe. -/
theorem get_ipv6_unicast_global_trace (os : Os) (interface : String) :
    (get_ipv6_unicast_global os interface).2 = (get_ipv6 os interface "2000::").2 := by
  unfold get_ipv6_unicast_global
  rcases get_ipv6 os interface "2000::" with ⟨v | e | _, t⟩ <;> simp

/-- The IPv4 link-local operation performs exactly the primitives of its
probe. -/
theorem get_ipv4_link_local_trace (os : Os) (interface : String) :
    (get_ipv4_link_local os interface).2 = (get_ipv4 os interface "169.254.0.0").2 := by
  unfold get_ipv4_link_local
  rcases get_ipv4 os interface "169.254.0.0" with ⟨v | e | _, t⟩ <;> simp

/-- The IPv4 global operation performs exactly the primitives of its probe. -/
theorem get_ipv4_global_trace (os : Os) (interface : String) :
    (get_ipv4_global os interface).2 = (get_ipv4 os interface "0.0.0.0").2 := by
  unfold get_ipv4_global
  rcases get_ipv4 os interface "0.0.0.0" with ⟨v | e | _, t⟩ <;> simp

/-- Every primitive in a `get_ipv4_private` trace is one of the five probe
primitives and is not a send. -/
theorem get_ipv4_private_trace_safe (os : Os) (interface : String) :
    ((get_ipv4_private os interface).2.all probeSafe) = true := by
  have h10 := get_ipv4_trace_safe os interface "10.0.0.0"
  have h172 := get_ipv4_trace_safe os interface "172.16.0.0"
  have h192 := get_ipv4_trace_safe os interface "192.168.0.0"
  unfold get_ipv4_private
  rcases hpa : get_ipv4 os interface "10.0.0.0" with ⟨ra, ta⟩
  rw [hpa] at h10
  rcases hpb : get_ipv4 os interface "172.16.0.0" with ⟨rb, tb⟩
  rw [hpb] at h172
  rcases hpc : get_ipv4 os interface "192.168.0.0" with ⟨rc, tc⟩
  rw [hpc] at h192
  rcases ra with va | e | _ <;> rcases rb with vb | e | _ <;> rcases rc with vc | e | _ <;>
    simp_all [List.all_append]

/-- C3: when a probe succeeds but the returned same-family address fails the
scope predicate, each operation returns its scope-specific error variant
carrying exactly the rejected probe address; for `get_ipv4_private`, when
all three probes succeed and none is private, the error carries all three
probed addresses. -/
theorem C3_scope_error_carries_rejected (os : Os) (interface : String) :
    (∀ v t, get_ipv6 os interface "fe80::" = (.ok v, t) → v.is_unicast_link_local = false →
      (get_ipv6_unicast_link_local os interface).1 = .err (.NoLinkLocal v))
  ∧ (∀ v t, get_ipv6 os interface "fc00::" = (.ok v, t) → v.is_unique_local = false →
      (get_ipv6_unique_local os interface).1 = .err (.NoUla v))
  ∧ (∀ v t, get_ipv6 os interface "2000::" = (.ok v, t) → v.is_unicast_global = false →
      (get_ipv6_unicast_global os interface).1 = .err (.NoGua v))
  ∧ (∀ v t, get_ipv4 os interface "169.254.0.0" = (.ok v, t) → v.is_link_local = false →
      (get_ipv4_link_local os interface).1 = .err (.NoV4LL v))
  ∧ (∀ a b c ta tb tc,
      get_ipv4 os interface "10.0.0.0" = (.ok a, ta) →
      get_ipv4 os interface "172.16.0.0" = (.ok b, tb) →
      get_ipv4 os interface "192.168.0.0" = (.ok c, tc) →
      a.is_private = false → b.is_private = false → c.is_private = false →
      (get_ipv4_private os interface).1 = .err (.NoPrivate a b c))
  ∧ (∀ v t, get_ipv4 os interface "0.0.0.0" = (.ok v, t) → v.is_global = false →
      (get_ipv4_global os interface).1 = .err (.NoGlobal v)) := by
  refine ⟨?_, ?_, ?_, ?_, ?_, ?_⟩
  · intro v t hp hv
    unfold get_ipv6_unicast_link_local
    rw [hp]
    simp [hv]
  · intro v t hp hv
    unfold get_ipv6_unique_local
    rw [hp]
    simp [hv]
  · intro v t hp hv
    unfold get_ipv6_unicast_global
    rw [hp]
    simp [hv]
  · intro v t hp hv
    unfold get_ipv4_link_local
    rw [hp]
    simp [hv]
  · intro a b c ta tb tc hpa hpb hpc ha hb hc
    unfold get_ipv4_private
    rw [hpa, hpb, hpc]
    simp [ha, hb, hc]
  · intro v t hp hv
    unfold get_ipv4_global
    rw [hp]
    simp [hv]

/-- C3 witness: on `wrongScopeOs` every probe resolves to a global address,
so the link-local operation rejects 2600::9 and the private operation
rejects 8.8.8.8 three times, each error carrying the rejected address(es). -/
theorem C3_scope_error_carries_rejected_witness :
    (get_ipv6_unicast_link_local wrongScopeOs "eth0").1 =
      .err (.NoLinkLocal ⟨0x2600, 0, 0, 0, 0, 0, 0, 9⟩)
  ∧ (get_ipv4_private wrongScopeOs "eth0").1 =
      .err (.NoPrivate ⟨8, 8, 8, 8⟩ ⟨8, 8, 8, 8⟩ ⟨8, 8, 8, 8⟩) :=
  ⟨(C3_scope_error_carries_rejected wrongScopeOs "eth0").1 _ _ rfl (by decide),
   (C3_scope_error_carries_rejected wrongScopeOs "eth0").2.2.2.2.1 _ _ _ _ _ _
     rfl rfl rfl (by decide) (by decide) (by decide)⟩

/-- C4 counterexample: the claim says the probe step never aborts even when
address resolution of the destination yields no socket address; but on an
oracle whose resolution succeeds with an empty address list the probe panics
(the `.next().unwrap()` in `get_ipv6`) instead of returning an error value. -/
theorem C4_counterexample :
    (get_ipv6_unicast_link_local emptyResolveOs "eth0").1 = .panic
  ∧ emptyResolveOs.toSocketAddrs "fe80::" 0 = .ok [] :=
  ⟨rfl, rfl⟩

/-- C4 (amended): provided address resolution never succeeds with an empty
address list (which holds for the literal destinations the library passes),
every failure of every operation is returned as an error value and no
operation panics. -/
theorem C4_no_panic (os : Os) (interface : String)
    (h : ∀ s, os.toSocketAddrs s 0 ≠ .ok []) :
    (get_ipv6_unicast_link_local os interface).1 ≠ .panic
  ∧ (get_ipv6_unique_local os interface).1 ≠ .panic
  ∧ (get_ipv6_unicast_global os interface).1 ≠ .panic
  ∧ (get_ipv4_link_local os interface).1 ≠ .panic
  ∧ (get_ipv4_private os interface).1 ≠ .panic
  ∧ (get_ipv4_global os interface).1 ≠ .panic := by
  refine ⟨?_, ?_, ?_, ?_, ?_, ?_⟩
  · have hnp := get_ipv6_no_panic os interface "fe80::" (h _)
    unfold get_ipv6_unicast_link_local
    rcases hp : get_ipv6 os interface "fe80::" with ⟨v | e | _, t⟩ <;> rw [hp] at hnp <;>
      simp_all <;> try (split <;> simp)
  · have hnp := get_ipv6_no_panic os interface "fc00::" (h _)
    unfold get_ipv6_unique_local
    rcases hp : get_ipv6 os interface "fc00::" with ⟨v | e | _, t⟩ <;> rw [hp] at hnp <;>
      simp_all <;> try (split <;> simp)
  · have hnp := get_ipv6_no_panic os interface "2000::" (h _)
    unfold get_ipv6_unicast_global
    rcases hp : get_ipv6 os interface "2000::" with ⟨v | e | _, t⟩ <;> rw [hp] at hnp <;>
      simp_all <;> try (split <;> simp)
  · have hnp := get_ipv4_no_panic os interface "169.254.0.0" (h _)
    unfold get_ipv4_link_local
    rcases hp : get_ipv4 os interface "169.254.0.0" with ⟨v | e | _, t⟩ <;> rw [hp] at hnp <;>
      simp_all <;> try (split <;> simp)
  · have hna := get_ipv4_no_panic os interface "10.0.0.0" (h _)
    have hnb := get_ipv4_no_panic os interface "172.16.0.0" (h _)
    have hnc := get_ipv4_no_panic os interface "192.168.0.0" (h _)
    unfold get_ipv4_private
    rcases hpa : get_ipv4 os interface "10.0.0.0" with ⟨ra, ta⟩
    rw [hpa] at hna
    rcases hpb : get_ipv4 os interface "172.16.0.0" with ⟨rb, tb⟩
    rw [hpb] at hnb
    rcases hpc : get_ipv4 os interface "192.168.0.0" with ⟨rc, tc⟩
    rw [hpc] at hnc
    rcases ra with va | e | _ <;> rcases rb with vb | e | _ <;> rcases rc with vc | e | _ <;>
      simp_all <;> try (repeat' split) <;> simp
  · have hnp := get_ipv4_no_panic os interface "0.0.0.0" (h _)
    unfold get_ipv4_global
    rcases hp : get_ipv4 os interface "0.0.0.0" with ⟨v | e | _, t⟩ <;> rw [hp] at hnp <;>
      simp_all <;> try (split <;> simp)

/-- C4 witness: on the well-behaved oracle, whose resolution always yields a
socket address, the link-local operation does not panic. -/
theorem C4_no_panic_witness :
    (get_ipv6_unicast_link_local goodOs "eth0").1 ≠ .panic :=
  (C4_no_panic goodOs "eth0" (fun s hs => by simp [goodOs] at hs)).1

/-- C5: family invariant at the probe layer.  A probe succeeds only with the
address the OS local-address query returned, which is of the requested
family; if the query reports an address of the other family, the probe
returns the family-mismatch error carrying the expected family and the
actual address. -/
theorem C5_family_check (os : Os) (interface network : String) :
    (∀ v, (get_ipv6 os interface network).1 = .ok v →
      ∃ sa la, os.localAddr .IPV6 interface sa = .ok la ∧ la.ip = .V6 v)
  ∧ (∀ v, (get_ipv4 os interface network).1 = .ok v →
      ∃ sa la, os.localAddr .IPV4 interface sa = .ok la ∧ la.ip = .V4 v)
  ∧ (∀ sa rest la w,
      os.socketNew .IPV6 .DGRAM = none →
      os.toSocketAddrs network 0 = .ok (sa :: rest) →
      os.bindDevice .IPV6 interface = none →
      os.connect .IPV6 interface sa = none →
      os.localAddr .IPV6 interface sa = .ok la →
      la.ip = .V4 w →
      (get_ipv6 os interface network).1 = .err (.WrongIpVer "IPv6" (.V4 w)))
  ∧ (∀ sa rest la w,
      os.socketNew .IPV4 .DGRAM = none →
      os.toSocketAddrs network 0 = .ok (sa :: rest) →
      os.bindDevice .IPV4 interface = none →
      os.connect .IPV4 interface sa = none →
      os.localAddr .IPV4 interface sa = .ok la →
      la.ip = .V6 w →
      (get_ipv4 os interface network).1 = .err (.WrongIpVer "IPv4" (.V6 w))) := by
  refine ⟨?_, ?_, ?_, ?_⟩
  · intro v h
    unfold get_ipv6 at h
    repeat' split at h
    any_goals (exfalso; simp at h; done)
    simp at h
    subst h
    exact ⟨_, _, by assumption, by assumption⟩
  · intro v h
    unfold get_ipv4 at h
    repeat' split at h
    any_goals (exfalso; simp at h; done)
    simp at h
    subst h
    exact ⟨_, _, by assumption, by assumption⟩
  · intro sa rest la w h1 h2 h3 h4 h5 h6
    simp [get_ipv6, h1, h2, h3, h4, h5, h6]
  · intro sa rest la w h1 h2 h3 h4 h5 h6
    simp [get_ipv4, h1, h2, h3, h4, h5, h6]

/-- C5 witness: on `goodOs` the IPv6 link-local probe succeeds with the V6
address the query returned, and on `wrongFamilyOs` (whose query reports
1.2.3.4 on an IPv6 socket) the probe returns the family-mismatch error with
the expected family and the actual address. -/
theorem C5_family_check_witness :
    (∃ sa la, goodOs.localAddr .IPV6 "eth0" sa = .ok la ∧
      la.ip = .V6 ⟨0xfe80, 0, 0, 0, 0, 0, 0, 1⟩)
  ∧ (get_ipv6 wrongFamilyOs "eth0" "fe80::").1 =
      .err (.WrongIpVer "IPv6" (.V4 ⟨1, 2, 3, 4⟩)) :=
  ⟨(C5_family_check goodOs "eth0" "fe80::").1 _ (by decide),
   (C5_family_check wrongFamilyOs "eth0" "fe80::").2.2.1
     (canonicalSockAddr "fe80::" 0) [] ⟨.V4 ⟨1, 2, 3, 4⟩, 40000⟩ ⟨1, 2, 3, 4⟩
     rfl rfl rfl rfl rfl rfl⟩

/-- C6: each scope class probes exactly its canonical representative
destination with port 0 — fe80::, fc00:: and 2000:: for the IPv6 scopes,
169.254.0.0 for IPv4 link-local, the three RFC1918 prefixes for IPv4
private, and 0.0.0.0 for IPv4 global.  (Resolution of the destination is
reached once the socket is created; for the private operation the later
probes are reached once the earlier probes succeed.) -/
theorem C6_canonical_destinations (os : Os) (interface : String) :
    (os.socketNew .IPV6 .DGRAM = none →
      resolveArgs (get_ipv6_unicast_link_local os interface).2 = [("fe80::", 0)])
  ∧ (os.socketNew .IPV6 .DGRAM = none →
      resolveArgs (get_ipv6_unique_local os interface).2 = [("fc00::", 0)])
  ∧ (os.socketNew .IPV6 .DGRAM = none →
      resolveArgs (get_ipv6_unicast_global os interface).2 = [("2000::", 0)])
  ∧ (os.socketNew .IPV4 .DGRAM = none →
      resolveArgs (get_ipv4_link_local os interface).2 = [("169.254.0.0", 0)])
  ∧ (∀ a b ta tb, get_ipv4 os interface "10.0.0.0" = (.ok a, ta) →
      get_ipv4 os interface "172.16.0.0" = (.ok b, tb) →
      resolveArgs (get_ipv4_private os interface).2 =
        [("10.0.0.0", 0), ("172.16.0.0", 0), ("192.168.0.0", 0)])
  ∧ (os.socketNew .IPV4 .DGRAM = none →
      resolveArgs (get_ipv4_global os interface).2 = [("0.0.0.0", 0)]) := by
  refine ⟨?_, ?_, ?_, ?_, ?_, ?_⟩
  · intro h
    rw [get_ipv6_unicast_link_local_trace]
    exact get_ipv6_trace_resolve os interface _ h
  · intro h
    rw [get_ipv6_unique_local_trace]
    exact get_ipv6_trace_resolve os interface _ h
  · intro h
    rw [get_ipv6_unicast_global_trace]
    exact get_ipv6_trace_resolve os interface _ h
  · intro h
    rw [get_ipv4_link_local_trace]
    exact get_ipv4_trace_resolve os interface _ h
  · intro a b ta tb ha hb
    obtain ⟨sa1, r1, hsn1, hres1, hta⟩ := get_ipv4_ok_trace os interface _ _ _ ha
    obtain ⟨sa2, r2, hsn2, hres2, htb⟩ := get_ipv4_ok_trace os interface _ _ _ hb
    have hres := get_ipv4_trace_resolve os interface "192.168.0.0" hsn1
    unfold get_ipv4_private
    rw [ha, hb]
    rcases hpc : get_ipv4 os interface "192.168.0.0" with ⟨rc, tc⟩
    rw [hpc] at hres
    subst hta htb
    rcases rc with vc | e | _ <;> simp_all [resolveArgs, List.filterMap_append]
  · intro h
    rw [get_ipv4_global_trace]
    exact get_ipv4_trace_resolve os interface _ h

/-- C6 witness: on `goodOs` the IPv6 link-local operation resolves exactly
fe80:: with port 0, and the private operation resolves exactly the three
RFC1918 prefixes with port 0. -/
theorem C6_canonical_destinations_witness :
    resolveArgs (get_ipv6_unicast_link_local goodOs "eth0").2 = [("fe80::", 0)]
  ∧ resolveArgs (get_ipv4_private goodOs "eth0").2 =
      [("10.0.0.0", 0), ("172.16.0.0", 0), ("192.168.0.0", 0)] :=
  ⟨(C6_canonical_destinations goodOs "eth0").1 rfl,
   (C6_canonical_destinations goodOs "eth0").2.2.2.2.1
     ⟨10, 1, 2, 3⟩ ⟨172, 16, 5, 5⟩ _ _ rfl rfl⟩

/-- C7 counterexample: the claim says three probes are issued for every
input, but when device binding fails the operation decides its result (an
I/O error) after a single probe, without issuing the other two. -/
theorem C7_counterexample :
    probeCount (get_ipv4_private bindFailOs "eth0").2 = 1
  ∧ (get_ipv4_private bindFailOs "eth0").1 = .err (.IoError ⟨19⟩) :=
  ⟨rfl, rfl⟩

/-- C7 (amended): whenever the three probes succeed — i.e. whenever the
operation reaches its private-validation decision — exactly three probes
were issued, one per RFC1918 block, in the order 10.0.0.0, 172.16.0.0,
192.168.0.0, before the result is decided. -/
theorem C7_three_probes_when_all_succeed (os : Os) (interface : String)
    (a b c : Ipv4Addr) (ta tb tc : List PrimCall)
    (ha : get_ipv4 os interface "10.0.0.0" = (.ok a, ta))
    (hb : get_ipv4 os interface "172.16.0.0" = (.ok b, tb))
    (hc : get_ipv4 os interface "192.168.0.0" = (.ok c, tc)) :
    probeCount (get_ipv4_private os interface).2 = 3
  ∧ resolveArgs (get_ipv4_private os interface).2 =
      [("10.0.0.0", 0), ("172.16.0.0", 0), ("192.168.0.0", 0)] := by
  obtain ⟨sa1, r1, hsn1, hres1, hta⟩ := get_ipv4_ok_trace os interface _ _ _ ha
  obtain ⟨sa2, r2, hsn2, hres2, htb⟩ := get_ipv4_ok_trace os interface _ _ _ hb
  obtain ⟨sa3, r3, hsn3, hres3, htc⟩ := get_ipv4_ok_trace os interface _ _ _ hc
  unfold get_ipv4_private
  rw [ha, hb, hc]
  subst hta htb htc
  constructor <;>
    simp [probeCount, resolveArgs, isSocketNew, List.filter_append, List.filterMap_append]

/-- C7 witness: on `goodOs` all three probes succeed and the operation
issues exactly three probes, one per RFC1918 block, in order. -/
theorem C7_three_probes_witness :
    probeCount (get_ipv4_private goodOs "eth0").2 = 3
  ∧ resolveArgs (get_ipv4_private goodOs "eth0").2 =
      [("10.0.0.0", 0), ("172.16.0.0", 0), ("192.168.0.0", 0)] :=
  C7_three_probes_when_all_succeed goodOs "eth0"
    ⟨10, 1, 2, 3⟩ ⟨172, 16, 5, 5⟩ ⟨192, 168, 1, 7⟩ _ _ _ rfl rfl rfl

/-- C8 counterexample: the probe does not invoke only socket-creation,
device-binding, datagram-connect and local-address-query primitives — it
also invokes address resolution, as the trace of the link-local operation
on the well-behaved oracle shows. -/
theorem C8_counterexample :
    ¬ ∀ c ∈ (get_ipv6_unicast_link_local goodOs "eth0").2, claimedProbePrim c = true := by
  decide

/-- C8 (amended): every primitive any operation invokes is one of
socket-creation, address-resolution, device-binding, datagram-connect or
local-address-query, and no operation ever invokes a send: no data is
transmitted to the probed destination. -/
theorem C8_no_send (os : Os) (interface : String) :
    (∀ c ∈ (get_ipv6_unicast_link_local os interface).2, probePrim c = true ∧ isSend c = false)
  ∧ (∀ c ∈ (get_ipv6_unique_local os interface).2, probePrim c = true ∧ isSend c = false)
  ∧ (∀ c ∈ (get_ipv6_unicast_global os interface).2, probePrim c = true ∧ isSend c = false)
  ∧ (∀ c ∈ (get_ipv4_link_local os interface).2, probePrim c = true ∧ isSend c = false)
  ∧ (∀ c ∈ (get_ipv4_private os interface).2, probePrim c = true ∧ isSend c = false)
  ∧ (∀ c ∈ (get_ipv4_global os interface).2, probePrim c = true ∧ isSend c = false) := by
  refine ⟨?_, ?_, ?_, ?_, ?_, ?_⟩ <;> intro c hc
  · have hs := get_ipv6_trace_safe os interface "fe80::"
    rw [← get_ipv6_unicast_link_local_trace] at hs
    have hp := List.all_eq_true.mp hs c hc
    simpa [probeSafe, Bool.and_eq_true, Bool.not_eq_true'] using hp
  · have hs := get_ipv6_trace_safe os interface "fc00::"
    rw [← get_ipv6_unique_local_trace] at hs
    have hp := List.all_eq_true.mp hs c hc
    simpa [probeSafe, Bool.and_eq_true, Bool.not_eq_true'] using hp
  · have hs := get_ipv6_trace_safe os interface "2000::"
    rw [← get_ipv6_unicast_global_trace] at hs
    have hp := List.all_eq_true.mp hs c hc
    simpa [probeSafe, Bool.and_eq_true, Bool.not_eq_true'] using hp
  · have hs := get_ipv4_trace_safe os interface "169.254.0.0"
    rw [← get_ipv4_link_local_trace] at hs
    have hp := List.all_eq_true.mp hs c hc
    simpa [probeSafe, Bool.and_eq_true, Bool.not_eq_true'] using hp
  · have hs := get_ipv4_private_trace_safe os interface
    have hp := List.all_eq_true.mp hs c hc
    simpa [probeSafe, Bool.and_eq_true, Bool.not_eq_true'] using hp
  · have hs := get_ipv4_trace_safe os interface "0.0.0.0"
    rw [← get_ipv4_global_trace] at hs
    have hp := List.all_eq_true.mp hs c hc
    simpa [probeSafe, Bool.and_eq_true, Bool.not_eq_true'] using hp

/-- C8 witness: the socket-creation call recorded in the link-local
operation's trace on `goodOs` is a probe primitive and not a send. -/
theorem C8_no_send_witness :
    probePrim (.socketNew .IPV6 .DGRAM) = true ∧ isSend (.socketNew .IPV6 .DGRAM) = false :=
  (C8_no_send goodOs "eth0").1 (.socketNew .IPV6 .DGRAM) (by decide)

/-- C9: any OS-level failure — at socket creation, address resolution,
device binding, address association (connect), or address query — is
returned as the IoError variant wrapping the underlying OS error, with no
internal retry: the probe's trace ends at the first failing call, and the
probe's IoError becomes the result of each of the six operations. -/
theorem C9_io_error_propagation (os : Os) (interface : String) (e : IoError) :
    ((get_ipv6 os interface "fe80::").1 = .err (.IoError e) →
      (get_ipv6_unicast_link_local os interface).1 = .err (.IoError e))
  ∧ ((get_ipv6 os interface "fc00::").1 = .err (.IoError e) →
      (get_ipv6_unique_local os interface).1 = .err (.IoError e))
  ∧ ((get_ipv6 os interface "2000::").1 = .err (.IoError e) →
      (get_ipv6_unicast_global os interface).1 = .err (.IoError e))
  ∧ ((get_ipv4 os interface "169.254.0.0").1 = .err (.IoError e) →
      (get_ipv4_link_local os interface).1 = .err (.IoError e))
  ∧ ((get_ipv4 os interface "10.0.0.0").1 = .err (.IoError e) →
      (get_ipv4_private os interface).1 = .err (.IoError e))
  ∧ ((get_ipv4 os interface "0.0.0.0").1 = .err (.IoError e) →
      (get_ipv4_global os interface).1 = .err (.IoError e))
  ∧ (∀ network, os.socketNew .IPV6 .DGRAM = some e →
      get_ipv6 os interface network = (.err (.IoError e), [.socketNew .IPV6 .DGRAM]))
  ∧ (∀ network, os.socketNew .IPV6 .DGRAM = none →
      os.toSocketAddrs network 0 = .error e →
      get_ipv6 os interface network =
        (.err (.IoError e), [.socketNew .IPV6 .DGRAM, .resolve network 0]))
  ∧ (∀ network sa rest, os.socketNew .IPV6 .DGRAM = none →
      os.toSocketAddrs network 0 = .ok (sa :: rest) →
      os.bindDevice .IPV6 interface = some e →
      get_ipv6 os interface network =
        (.err (.IoError e), [.socketNew .IPV6 .DGRAM, .resolve network 0,
          .bindDevice .IPV6 interface]))
  ∧ (∀ network sa rest, os.socketNew .IPV6 .DGRAM = none →
      os.toSocketAddrs network 0 = .ok (sa :: rest) →
      os.bindDevice .IPV6 interface = none →
      os.connect .IPV6 interface sa = some e →
      get_ipv6 os interface network =
        (.err (.IoError e), [.socketNew .IPV6 .DGRAM, .resolve network 0,
          .bindDevice .IPV6 interface, .connect .IPV6 interface sa]))
  ∧ (∀ network sa rest, os.socketNew .IPV6 .DGRAM = none →
      os.toSocketAddrs network 0 = .ok (sa :: rest) →
      os.bindDevice .IPV6 interface = none →
      os.connect .IPV6 interface sa = none →
      os.localAddr .IPV6 interface sa = .error e →
      get_ipv6 os interface network =
        (.err (.IoError e), [.socketNew .IPV6 .DGRAM, .resolve network 0,
          .bindDevice .IPV6 interface, .connect .IPV6 interface sa,
          .localAddr .IPV6 interface sa]))
  ∧ (∀ network, os.socketNew .IPV4 .DGRAM = some e →
      get_ipv4 os interface network = (.err (.IoError e), [.socketNew .IPV4 .DGRAM]))
  ∧ (∀ network, os.socketNew .IPV4 .DGRAM = none →
      os.toSocketAddrs network 0 = .error e →
      get_ipv4 os interface network =
        (.err (.IoError e), [.socketNew .IPV4 .DGRAM, .resolve network 0]))
  ∧ (∀ network sa rest, os.socketNew .IPV4 .DGRAM = none →
      os.toSocketAddrs network 0 = .ok (sa :: rest) →
      os.bindDevice .IPV4 interface = some e →
      get_ipv4 os interface network =
        (.err (.IoError e), [.socketNew .IPV4 .DGRAM, .resolve network 0,
          .bindDevice .IPV4 interface]))
  ∧ (∀ network sa rest, os.socketNew .IPV4 .DGRAM = none →
      os.toSocketAddrs network 0 = .ok (sa :: rest) →
      os.bindDevice .IPV4 interface = none →
      os.connect .IPV4 interface sa = some e →
      get_ipv4 os interface network =
        (.err (.IoError e), [.socketNew .IPV4 .DGRAM, .resolve network 0,
          .bindDevice .IPV4 interface, .connect .IPV4 interface sa]))
  ∧ (∀ network sa rest, os.socketNew .IPV4 .DGRAM = none →
      os.toSocketAddrs network 0 = .ok (sa :: rest) →
      os.bindDevice .IPV4 interface = none →
      os.connect .IPV4 interface sa = none →
      os.localAddr .IPV4 interface sa = .error e →
      get_ipv4 os interface network =
        (.err (.IoError e), [.socketNew .IPV4 .DGRAM, .resolve network 0,
          .bindDevice .IPV4 interface, .connect .IPV4 interface sa,
          .localAddr .IPV4 interface sa])) := by
  refine ⟨?_, ?_, ?_, ?_, ?_, ?_, ?_, ?_, ?_, ?_, ?_, ?_, ?_, ?_, ?_, ?_⟩
  · intro h
    unfold get_ipv6_unicast_link_local
    rcases hp : get_ipv6 os interface "fe80::" with ⟨r, t⟩
    rw [hp] at h
    rcases r with v | e2 | _ <;> simp_all
  · intro h
    unfold get_ipv6_unique_local
    rcases hp : get_ipv6 os interface "fc00::" with ⟨r, t⟩
    rw [hp] at h
    rcases r with v | e2 | _ <;> simp_all
  · intro h
    unfold get_ipv6_unicast_global
    rcases hp : get_ipv6 os interface "2000::" with ⟨r, t⟩
    rw [hp] at h
    rcases r with v | e2 | _ <;> simp_all
  · intro h
    unfold get_ipv4_link_local
    rcases hp : get_ipv4 os interface "169.254.0.0" with ⟨r, t⟩
    rw [hp] at h
    rcases r with v | e2 | _ <;> simp_all
  · intro h
    unfold get_ipv4_private
    rcases hp : get_ipv4 os interface "10.0.0.0" with ⟨r, t⟩
    rw [hp] at h
    rcases r with v | e2 | _ <;> simp_all
  · intro h
    unfold get_ipv4_global
    rcases hp : get_ipv4 os interface "0.0.0.0" with ⟨r, t⟩
    rw [hp] at h
    rcases r with v | e2 | _ <;> simp_all
  · intro network h1
    simp [get_ipv6, h1]
  · intro network h1 h2
    simp [get_ipv6, h1, h2]
  · intro network sa rest h1 h2 h3
    simp [get_ipv6, h1, h2, h3]
  · intro network sa rest h1 h2 h3 h4
    simp [get_ipv6, h1, h2, h3, h4]
  · intro network sa rest h1 h2 h3 h4 h5
    simp [get_ipv6, h1, h2, h3, h4, h5]
  · intro network h1
    simp [get_ipv4, h1]
  · intro network h1 h2
    simp [get_ipv4, h1, h2]
  · intro network sa rest h1 h2 h3
    simp [get_ipv4, h1, h2, h3]
  · intro network sa rest h1 h2 h3 h4
    simp [get_ipv4, h1, h2, h3, h4]
  · intro network sa rest h1 h2 h3 h4 h5
    simp [get_ipv4, h1, h2, h3, h4, h5]

/-- C9 witness: on `bindFailOs`, whose device-binding call fails with OS
error 19 (as for a nonexistent interface name), every one of the six
operations returns the I/O-failure error wrapping that OS error. -/
theorem C9_io_error_propagation_witness :
    (get_ipv6_unicast_link_local bindFailOs "nodev0").1 = .err (.IoError ⟨19⟩)
  ∧ (get_ipv6_unique_local bindFailOs "nodev0").1 = .err (.IoError ⟨19⟩)
  ∧ (get_ipv6_unicast_global bindFailOs "nodev0").1 = .err (.IoError ⟨19⟩)
  ∧ (get_ipv4_link_local bindFailOs "nodev0").1 = .err (.IoError ⟨19⟩)
  ∧ (get_ipv4_private bindFailOs "nodev0").1 = .err (.IoError ⟨19⟩)
  ∧ (get_ipv4_global bindFailOs "nodev0").1 = .err (.IoError ⟨19⟩) :=
  ⟨(C9_io_error_propagation bindFailOs "nodev0" ⟨19⟩).1 (by decide),
   (C9_io_error_propagation bindFailOs "nodev0" ⟨19⟩).2.1 (by decide),
   (C9_io_error_propagation bindFailOs "nodev0" ⟨19⟩).2.2.1 (by decide),
   (C9_io_error_propagation bindFailOs "nodev0" ⟨19⟩).2.2.2.1 (by decide),
   (C9_io_error_propagation bindFailOs "nodev0" ⟨19⟩).2.2.2.2.1 (by decide),
   (C9_io_error_propagation bindFailOs "nodev0" ⟨19⟩).2.2.2.2.2.1 (by decide)⟩

/-- C10: success of `get_ipv4_private` requires all three probes to
succeed; the probes run in the order 10.0.0.0, 172.16.0.0, 192.168.0.0, and
a failing probe's error is returned immediately, the trace ending with the
failing probe — the remaining probes are never issued. -/
theorem C10_private_sequencing (os : Os) (interface : String) :
    (∀ x tx, get_ipv4_private os interface = (.ok x, tx) →
      ∃ a ta b tb c tc,
        get_ipv4 os interface "10.0.0.0" = (.ok a, ta) ∧
        get_ipv4 os interface "172.16.0.0" = (.ok b, tb) ∧
        get_ipv4 os interface "192.168.0.0" = (.ok c, tc))
  ∧ (∀ e ta, get_ipv4 os interface "10.0.0.0" = (.err e, ta) →
      get_ipv4_private os interface = (.err e, ta))
  ∧ (∀ a ta e tb, get_ipv4 os interface "10.0.0.0" = (.ok a, ta) →
      get_ipv4 os interface "172.16.0.0" = (.err e, tb) →
      get_ipv4_private os interface = (.err e, ta ++ tb))
  ∧ (∀ a ta b tb e tc, get_ipv4 os interface "10.0.0.0" = (.ok a, ta) →
      get_ipv4 os interface "172.16.0.0" = (.ok b, tb) →
      get_ipv4 os interface "192.168.0.0" = (.err e, tc) →
      get_ipv4_private os interface = (.err e, ta ++ tb ++ tc)) := by
  refine ⟨?_, ?_, ?_, ?_⟩
  · intro x tx h
    unfold get_ipv4_private at h
    rcases hpa : get_ipv4 os interface "10.0.0.0" with ⟨ra, ta⟩
    rw [hpa] at h
    rcases ra with va | e | _
    · rcases hpb : get_ipv4 os interface "172.16.0.0" with ⟨rb, tb⟩
      rw [hpb] at h
      rcases rb with vb | e | _
      · rcases hpc : get_ipv4 os interface "192.168.0.0" with ⟨rc, tc⟩
        rw [hpc] at h
        rcases rc with vc | e | _
        · exact ⟨va, ta, vb, tb, vc, tc, rfl, rfl, rfl⟩
        · simp at h
        · simp at h
      · simp at h
      · simp at h
    · simp at h
    · simp at h
  · intro e ta h
    unfold get_ipv4_private
    rw [h]
  · intro a ta e tb ha hb
    unfold get_ipv4_private
    rw [ha, hb]
  · intro a ta b tb e tc ha hb hc
    unfold get_ipv4_private
    rw [ha, hb, hc]

/-- C10 witness: on `midFailOs` the 10.0.0.0 probe succeeds, the 172.16.0.0
probe fails with OS error 101, and the operation returns that error even
though the 192.168.0.0 probe would have returned the valid private address
192.168.1.7. -/
theorem C10_private_sequencing_witness :
    (get_ipv4_private midFailOs "eth0").1 = .err (.IoError ⟨101⟩)
  ∧ (get_ipv4 midFailOs "eth0" "192.168.0.0").1 = .ok ⟨192, 168, 1, 7⟩ :=
  ⟨congrArg Prod.fst
    ((C10_private_sequencing midFailOs "eth0").2.2.1 ⟨10, 1, 2, 3⟩ _ (.IoError ⟨101⟩) _ rfl rfl),
   by decide⟩

end PreferredIp
